import Mathlib

/-!
Verification of the sentiment-driven response selection and aggregation
logic of the HF_MCP repository (src/smart_sentiment_agent.py and
src/working_sentiment_client.py), shallowly embedded in Lean 4.
Floating-point values of the source are modelled as exact rationals;
`None` sentiment results are modelled with `Option`.
-/

/-- A sentiment measurement as produced by the upstream provider and parsed by
the clients: `polarity` in [-1,1], `subjectivity` in [0,1], a categorical
`assessment` string, and the analyzed text.  The timestamp field of the source
dictionaries is used only for display and is not modelled. -/
structure SentimentMeasurement where
  text : String
  polarity : ℚ
  subjectivity : ℚ
  assessment : String
deriving Repr, DecidableEq

/-- The response candidate list chosen in the `assessment == 'positive'` and
`polarity > 0.3` branch of `FixedSmartSentimentAgent.generate_empathetic_response`
(src/smart_sentiment_agent.py lines 76-81). -/
def strong_positive_responses : List String :=
  [ "🌟 I can feel your enthusiasm! That's wonderful to hear.",
    "😊 Your positive energy is contagious! I'm excited to help.",
    "✨ It sounds like you're in a great mood! How can I assist you today?" ]

/-- The candidate list of the `positive`, `polarity <= 0.3` branch
(src/smart_sentiment_agent.py lines 82-87). -/
def mild_positive_responses : List String :=
  [ "😌 I sense some gentle positivity in your message.",
    "🙂 You seem content. I'm here if you need anything.",
    "👍 That sounds pretty good! How can I help you further?" ]

/-- The candidate list of the `negative`, `polarity < -0.3` branch
(src/smart_sentiment_agent.py lines 89-94). -/
def strong_negative_responses : List String :=
  [ "😞 I can hear the frustration in your words. I'm here to help.",
    "💙 That sounds really challenging. Let's work through this together.",
    "🤗 I'm sorry you're dealing with this. How can I support you?" ]

/-- The candidate list of the `negative`, `polarity >= -0.3` branch
(src/smart_sentiment_agent.py lines 95-100). -/
def mild_negative_responses : List String :=
  [ "😐 I sense some concern in your message. I'm here to listen.",
    "🤝 It sounds like you might be feeling uncertain. Let's talk about it.",
    "💭 I notice some hesitation. Would you like to share more?" ]

/-- The candidate list of the final `else` (neutral) branch
(src/smart_sentiment_agent.py lines 101-106). -/
def neutral_responses : List String :=
  [ "🤔 I'm listening. Please tell me more about what you need.",
    "📝 I understand. How would you like me to help you with this?",
    "💡 Got it. What specific assistance are you looking for?" ]

/-- The nested conditional of
`FixedSmartSentimentAgent.generate_empathetic_response` that assigns the
`responses` variable (src/smart_sentiment_agent.py lines 74-106): bucket
selection by `assessment`, sub-selected by `polarity` magnitude. -/
def response_bucket (d : SentimentMeasurement) : List String :=
  if d.assessment = "positive" then
    if d.polarity > 0.3 then strong_positive_responses else mild_positive_responses
  else if d.assessment = "negative" then
    if d.polarity < -0.3 then strong_negative_responses else mild_negative_responses
  else
    neutral_responses

/-- The subjectivity-based note of
`FixedSmartSentimentAgent.generate_empathetic_response`
(src/smart_sentiment_agent.py lines 110-116). -/
def emotion_note (d : SentimentMeasurement) : String :=
  if d.subjectivity > 0.7 then " I can sense this is quite personal and important to you."
  else if d.subjectivity < 0.3 then " Let's look at this objectively and find the best solution."
  else ""

/-- `FixedSmartSentimentAgent.generate_empathetic_response`
(src/smart_sentiment_agent.py lines 65-118).  A falsy `sentiment_data`
(the `None` returned when analysis failed) yields the fixed fallback prompt;
otherwise `responses[0]` of the selected bucket is concatenated with the
subjectivity note.  `responses[0]` is embedded as `List.headD` with an unused
default, every bucket being non-empty. -/
def generate_empathetic_response (sentiment_data : Option SentimentMeasurement)
    (user_message : String) : String :=
  match sentiment_data with
  | none => "I'm here to help! Could you tell me more about what you're thinking?"
  | some d => (response_bucket d).headD "" ++ emotion_note d

/-- C1: for a present measurement, the response bucket is selected exactly as
specified: assessment "positive" with polarity > 0.3 gives the strong positive
bucket and polarity <= 0.3 the mild positive bucket; "negative" with
polarity < -0.3 gives the strong negative bucket and polarity >= -0.3 the mild
negative bucket; "neutral" gives the neutral bucket for any polarity. -/
theorem classify_bucket_selection (d : SentimentMeasurement) :
    (d.assessment = "positive" → 0.3 < d.polarity →
      response_bucket d = strong_positive_responses) ∧
    (d.assessment = "positive" → d.polarity ≤ 0.3 →
      response_bucket d = mild_positive_responses) ∧
    (d.assessment = "negative" → d.polarity < -0.3 →
      response_bucket d = strong_negative_responses) ∧
    (d.assessment = "negative" → -0.3 ≤ d.polarity →
      response_bucket d = mild_negative_responses) ∧
    (d.assessment = "neutral" → response_bucket d = neutral_responses) := by
  unfold response_bucket
  refine ⟨?_, ?_, ?_, ?_, ?_⟩ <;> intro ha
  · intro hp; rw [if_pos ha, if_pos hp]
  · intro hp; rw [if_pos ha, if_neg (by exact not_lt.mpr hp)]
  · intro hp
    rw [if_neg (by rw [ha]; decide), if_pos ha, if_pos hp]
  · intro hp
    rw [if_neg (by rw [ha]; decide), if_pos ha, if_neg (by exact not_lt.mpr hp)]
  · rw [if_neg (by rw [ha]; decide), if_neg (by rw [ha]; decide)]

/-- Witness for C1 at a concrete measurement: assessment "positive" with
polarity 0.8 selects the strong positive bucket. -/
theorem classify_bucket_selection_witness :
    response_bucket ⟨"great", 4/5, 9/10, "positive"⟩ = strong_positive_responses :=
  (classify_bucket_selection ⟨"great", 4/5, 9/10, "positive"⟩).1 rfl (by norm_num)

/-- C2: for a present measurement with subjectivity s, the personal/emotional
qualifier is appended iff s > 0.7, the objective/analytical qualifier iff
s < 0.3, and no qualifier (the empty string) iff 0.3 <= s <= 0.7; the result
is the base reply concatenated with exactly that qualifier. -/
theorem subjectivity_qualifier (d : SentimentMeasurement) (m : String) :
    generate_empathetic_response (some d) m = (response_bucket d).headD "" ++ emotion_note d ∧
    (0.7 < d.subjectivity →
      emotion_note d = " I can sense this is quite personal and important to you.") ∧
    (d.subjectivity < 0.3 →
      emotion_note d = " Let's look at this objectively and find the best solution.") ∧
    (0.3 ≤ d.subjectivity → d.subjectivity ≤ 0.7 → emotion_note d = "") := by
  refine ⟨rfl, ?_, ?_, ?_⟩ <;> unfold emotion_note <;> intro h
  · rw [if_pos h]
  · rw [if_neg (by exact not_lt.mpr (le_trans h.le (by norm_num))), if_pos h]
  · intro h7
    rw [if_neg (by exact not_lt.mpr h7), if_neg (by exact not_lt.mpr h)]

/-- Witness for C2 at a concrete measurement with subjectivity 0.9: the
personal/emotional qualifier is appended to the base reply. -/
theorem subjectivity_qualifier_witness :
    emotion_note ⟨"great", 4/5, 9/10, "positive"⟩ =
      " I can sense this is quite personal and important to you." :=
  (subjectivity_qualifier ⟨"great", 4/5, 9/10, "positive"⟩ "great").2.1 (by norm_num)

/-- C4: an absent measurement always yields the one fixed fallback prompt,
whatever the accompanying user message; the function is total, so this path
never raises. -/
theorem absent_measurement_fallback (user_message : String) :
    generate_empathetic_response none user_message =
      "I'm here to help! Could you tell me more about what you're thinking?" := rfl

/-- The mood label and color icon selected by `assessment` in
`FixedSmartSentimentAgent.format_sentiment_display`
(src/smart_sentiment_agent.py lines 129-138); the surrounding f-string that
renders the numeric fields is pure formatting and is not modelled. -/
def format_sentiment_display_mood (assessment : String) : String × String :=
  if assessment = "positive" then ("😊 Positive", "🟢")
  else if assessment = "negative" then ("😢 Negative", "🔴")
  else ("😐 Neutral", "⚪")

/-- The mood emoji and color icon selected by `assessment` in
`WorkingSentimentClient.format_result` (src/working_sentiment_client.py
lines 76-85). -/
def format_result_mood (assessment : String) : String × String :=
  if assessment = "positive" then ("😊", "🟢")
  else if assessment = "negative" then ("😢", "🔴")
  else ("😐", "⚪")

/-- The bar width constant of `WorkingSentimentClient.format_result`
(src/working_sentiment_client.py line 89). -/
def bar_length : ℕ := 20

/-- Truncation toward zero, the semantics of the `int()` conversion applied to
the bar lengths in `WorkingSentimentClient.format_result`. -/
def pyInt (q : ℚ) : ℤ := if 0 ≤ q then ⌊q⌋ else -⌊-q⌋

/-- `s` repeated `n` times, as a string. -/
def strRepeat (s : String) (n : ℕ) : String := String.join (List.replicate n s)

/-- Python string repetition `s * n`: a non-positive count gives the empty
string. -/
def pyStrMul (s : String) (n : ℤ) : String := strRepeat s n.toNat

/-- The polarity bar of `WorkingSentimentClient.format_result`
(src/working_sentiment_client.py lines 87-91): polarity is normalized from
[-1,1] to [0,1] via `(polarity + 1) / 2`, multiplied by the bar width,
truncated to `filled_length`, and rendered as that many filled cells followed
by `bar_length - filled_length` unfilled cells. -/
def polarity_bar (polarity : ℚ) : String :=
  pyStrMul "█" (pyInt ((polarity + 1) / 2 * (bar_length : ℚ))) ++
    pyStrMul "░" ((bar_length : ℤ) - pyInt ((polarity + 1) / 2 * (bar_length : ℚ)))

/-- The subjectivity bar of `WorkingSentimentClient.format_result`
(src/working_sentiment_client.py lines 93-95). -/
def subj_bar (subjectivity : ℚ) : String :=
  pyStrMul "█" (pyInt (subjectivity * (bar_length : ℚ))) ++
    pyStrMul "░" ((bar_length : ℤ) - pyInt (subjectivity * (bar_length : ℚ)))

lemma pyInt_eq_floor (q : ℚ) (h : 0 ≤ q) : pyInt q = ⌊q⌋ := if_pos h

lemma polarity_bar_eq (p : ℚ) (hp1 : -1 ≤ p) (hp2 : p ≤ 1) :
    polarity_bar p =
      strRepeat "█" (⌊(p + 1) / 2 * 20⌋).toNat ++
        strRepeat "░" (20 - (⌊(p + 1) / 2 * 20⌋).toNat) := by
  have hq0 : 0 ≤ (p + 1) / 2 * 20 := by nlinarith
  have hq20 : (p + 1) / 2 * 20 ≤ 20 := by nlinarith
  have hf0 : 0 ≤ ⌊(p + 1) / 2 * 20⌋ := Int.floor_nonneg.mpr hq0
  have hf20 : ⌊(p + 1) / 2 * 20⌋ ≤ 20 := by
    have := Int.floor_le_floor hq20
    simpa using this
  unfold polarity_bar pyStrMul
  rw [show ((bar_length : ℕ) : ℚ) = 20 from by norm_num [bar_length],
    pyInt_eq_floor _ hq0,
    show ((bar_length : ℤ) - ⌊(p + 1) / 2 * 20⌋).toNat =
      20 - (⌊(p + 1) / 2 * 20⌋).toNat from by unfold bar_length; omega]

lemma subj_bar_eq (s : ℚ) (hs1 : 0 ≤ s) (hs2 : s ≤ 1) :
    subj_bar s =
      strRepeat "█" (⌊s * 20⌋).toNat ++ strRepeat "░" (20 - (⌊s * 20⌋).toNat) := by
  have hq0 : 0 ≤ s * 20 := by nlinarith
  have hq20 : s * 20 ≤ 20 := by nlinarith
  have hf0 : 0 ≤ ⌊s * 20⌋ := Int.floor_nonneg.mpr hq0
  have hf20 : ⌊s * 20⌋ ≤ 20 := by
    have := Int.floor_le_floor hq20
    simpa using this
  unfold subj_bar pyStrMul
  rw [show ((bar_length : ℕ) : ℚ) = 20 from by norm_num [bar_length],
    pyInt_eq_floor _ hq0,
    show ((bar_length : ℤ) - ⌊s * 20⌋).toNat = 20 - (⌊s * 20⌋).toNat from by
      unfold bar_length; omega]

/-- C7: for polarity in [-1,1] and subjectivity in [0,1], the polarity bar has
floor((polarity+1)/2 * 20) filled cells followed by the remainder of the
20-cell width unfilled, the subjectivity bar has floor(subjectivity * 20)
filled cells, and polarity -1 yields 0 filled cells. -/
theorem bar_rendering (p s : ℚ) (hp1 : -1 ≤ p) (hp2 : p ≤ 1)
    (hs1 : 0 ≤ s) (hs2 : s ≤ 1) :
    polarity_bar p =
      strRepeat "█" (⌊(p + 1) / 2 * 20⌋).toNat ++
        strRepeat "░" (20 - (⌊(p + 1) / 2 * 20⌋).toNat) ∧
    subj_bar s =
      strRepeat "█" (⌊s * 20⌋).toNat ++ strRepeat "░" (20 - (⌊s * 20⌋).toNat) ∧
    polarity_bar (-1) = strRepeat "█" 0 ++ strRepeat "░" 20 := by
  refine ⟨polarity_bar_eq p hp1 hp2, subj_bar_eq s hs1 hs2, ?_⟩
  rw [polarity_bar_eq (-1) (by norm_num) (by norm_num)]
  norm_num

/-- Witness for C7 at polarity -1 and subjectivity 1: the polarity bar is
fully unfilled and the subjectivity bar fully filled. -/
theorem bar_rendering_witness :
    polarity_bar (-1) =
      strRepeat "█" (⌊((-1 : ℚ) + 1) / 2 * 20⌋).toNat ++
        strRepeat "░" (20 - (⌊((-1 : ℚ) + 1) / 2 * 20⌋).toNat) ∧
    subj_bar 1 =
      strRepeat "█" (⌊(1 : ℚ) * 20⌋).toNat ++
        strRepeat "░" (20 - (⌊(1 : ℚ) * 20⌋).toNat) ∧
    polarity_bar (-1) = strRepeat "█" 0 ++ strRepeat "░" 20 :=
  bar_rendering (-1) 1 (by norm_num) (by norm_num) (by norm_num) (by norm_num)

lemma response_bucket_headD_ne (d : SentimentMeasurement) :
    (response_bucket d).headD "" ≠ "" := by
  unfold response_bucket
  split_ifs <;> decide

lemma append_ne_empty_left (s t : String) (h : s ≠ "") : s ++ t ≠ "" := by
  intro he
  apply h
  have hd := congrArg String.data he
  rw [String.data_append] at hd
  have hnil : s.data = [] := (List.append_eq_nil.mp hd).1
  cases s
  simp_all

/-- C9: for a present measurement, the reply is the first candidate (index 0)
of the selected bucket concatenated with the qualifier, it is non-empty, and
it is identical across any two calls with identical input (deterministic, no
randomization). -/
theorem first_candidate_deterministic (d : SentimentMeasurement) (m : String) :
    generate_empathetic_response (some d) m = (response_bucket d).headD "" ++ emotion_note d ∧
    (response_bucket d).headD "" = (response_bucket d).getD 0 "" ∧
    generate_empathetic_response (some d) m ≠ "" ∧
    (∀ d2 m2, d2 = d → m2 = m →
      generate_empathetic_response (some d2) m2 = generate_empathetic_response (some d) m) := by
  refine ⟨rfl, ?_, ?_, ?_⟩
  · cases response_bucket d <;> rfl
  · exact append_ne_empty_left _ _ (response_bucket_headD_ne d)
  · intro d2 m2 h1 h2; rw [h1, h2]

/-- Witness for C9 at a concrete neutral measurement: the reply is non-empty. -/
theorem first_candidate_deterministic_witness :
    generate_empathetic_response (some ⟨"ok", 0, 1/2, "neutral"⟩) "ok" ≠ "" :=
  (first_candidate_deterministic ⟨"ok", 0, 1/2, "neutral"⟩ "ok").2.2.1

/-- C10: any assessment string other than "positive" and "negative" (not only
"neutral") takes the neutral branch in both the response selection and the two
display formatters, so these functions are total over arbitrary assessment
strings. -/
theorem unrecognized_assessment_neutral (d : SentimentMeasurement)
    (h1 : d.assessment ≠ "positive") (h2 : d.assessment ≠ "negative") :
    response_bucket d = neutral_responses ∧
    format_sentiment_display_mood d.assessment = ("😐 Neutral", "⚪") ∧
    format_result_mood d.assessment = ("😐", "⚪") := by
  refine ⟨?_, ?_, ?_⟩ <;>
    simp [response_bucket, format_sentiment_display_mood, format_result_mood, h1, h2]

/-- Witness for C10 at the unrecognized assessment string "surprising". -/
theorem unrecognized_assessment_neutral_witness :
    response_bucket ⟨"hm", 0, 0, "surprising"⟩ = neutral_responses ∧
    format_sentiment_display_mood "surprising" = ("😐 Neutral", "⚪") ∧
    format_result_mood "surprising" = ("😐", "⚪") :=
  unrecognized_assessment_neutral ⟨"hm", 0, 0, "surprising"⟩ (by decide) (by decide)

/-- One record of the agent's `conversation_history`
(src/smart_sentiment_agent.py lines 157-162): the user message, the sentiment
measurement (absent when analysis failed), and the generated response.  The
timestamp field is used only for display and is not modelled. -/
structure HistoryEntry where
  user_message : String
  sentiment : Option SentimentMeasurement
  agent_response : String
deriving Repr, DecidableEq

/-- `FixedSmartSentimentAgent.process_user_input`
(src/smart_sentiment_agent.py lines 142-164) as a state transition on the
conversation history: the sentiment analysis outcome (a measurement, or `none`
on failure) is an explicit input, the empathetic response is generated, one
record is appended, and the response is returned with the new history. -/
def process_user_input (conversation_history : List HistoryEntry)
    (user_message : String) (sentiment : Option SentimentMeasurement) :
    List HistoryEntry × String :=
  let response := generate_empathetic_response sentiment user_message
  (conversation_history ++ [⟨user_message, sentiment, response⟩], response)

/-- A whole session: starting from the empty history created at construction
(src/smart_sentiment_agent.py line 15), process each input in turn, each with
its sentiment analysis outcome. -/
def runSession (inputs : List (String × Option SentimentMeasurement)) :
    List HistoryEntry :=
  inputs.foldl (fun h p => (process_user_input h p.1 p.2).1) []

lemma foldl_process_append (inputs : List (String × Option SentimentMeasurement))
    (init : List HistoryEntry) :
    inputs.foldl (fun h p => (process_user_input h p.1 p.2).1) init =
      init ++ inputs.map
        (fun p => ⟨p.1, p.2, generate_empathetic_response p.2 p.1⟩) := by
  induction inputs generalizing init with
  | nil => simp
  | cons a t ih =>
    simp only [List.foldl_cons, List.map_cons, ih]
    simp [process_user_input]

/-- C8: each processed input appends exactly one record to the history — also
when the measurement is absent — so the history length always equals the
number of processed inputs, and processing only ever appends: the prior
history is preserved unchanged at the front. -/
theorem history_grows_by_one :
    (∀ (h : List HistoryEntry) (msg : String) (s : Option SentimentMeasurement),
      (process_user_input h msg s).1 =
        h ++ [⟨msg, s, generate_empathetic_response s msg⟩] ∧
      (process_user_input h msg s).1.length = h.length + 1) ∧
    (∀ inputs, (runSession inputs).length = inputs.length) ∧
    (∀ inputs extra, ∃ tail, runSession (inputs ++ extra) = runSession inputs ++ tail) := by
  refine ⟨fun h msg s => ⟨rfl, by simp [process_user_input]⟩, ?_, ?_⟩
  · intro inputs
    unfold runSession
    rw [foldl_process_append]
    simp
  · intro inputs extra
    unfold runSession
    rw [foldl_process_append, foldl_process_append]
    exact ⟨extra.map (fun p => ⟨p.1, p.2, generate_empathetic_response p.2 p.1⟩),
      by simp⟩

/-- The numeric fields of the report rendered by
`FixedSmartSentimentAgent.get_conversation_summary`
(src/smart_sentiment_agent.py lines 186-193). -/
structure SummaryStats where
  total : ℕ
  avg_polarity : ℚ
  avg_subjectivity : ℚ
  pos_count : ℕ
  neg_count : ℕ
  neu_count : ℕ
  pos_pct : ℚ
  neg_pct : ℚ
  neu_pct : ℚ
deriving Repr, DecidableEq

/-- The result of `FixedSmartSentimentAgent.get_conversation_summary`: one of
the two sentinel "no data" strings (lines 168-174) or the statistics carried
by the rendered report; the f-string rendering itself is pure formatting and
is not modelled. -/
inductive ConversationSummary where
  | noConversationData : ConversationSummary
  | noSentimentData : ConversationSummary
  | summary : SummaryStats → ConversationSummary
deriving Repr, DecidableEq

/-- `FixedSmartSentimentAgent.get_conversation_summary`
(src/smart_sentiment_agent.py lines 166-193): empty history gives the first
sentinel; a history whose records all carry an absent (falsy) measurement
gives the second; otherwise averages, counts and percentages are computed over
the present measurements only. -/
def get_conversation_summary (conversation_history : List HistoryEntry) :
    ConversationSummary :=
  if conversation_history.isEmpty then ConversationSummary.noConversationData
  else
    let sentiments := conversation_history.filterMap (fun e => e.sentiment)
    if sentiments.isEmpty then ConversationSummary.noSentimentData
    else
      let total := sentiments.length
      let pos_count := (sentiments.map (fun s => s.assessment)).count "positive"
      let neg_count := (sentiments.map (fun s => s.assessment)).count "negative"
      let neu_count := (sentiments.map (fun s => s.assessment)).count "neutral"
      ConversationSummary.summary
        ⟨total,
         (sentiments.map (fun s => s.polarity)).sum / (total : ℚ),
         (sentiments.map (fun s => s.subjectivity)).sum / (total : ℚ),
         pos_count, neg_count, neu_count,
         (pos_count : ℚ) / (total : ℚ) * 100,
         (neg_count : ℚ) / (total : ℚ) * 100,
         (neu_count : ℚ) / (total : ℚ) * 100⟩

/-- The overall-mood label computed inline in the summary f-string of
`WorkingSentimentClient.get_summary` (src/working_sentiment_client.py
line 137). -/
def overall_mood_label (avg_polarity : ℚ) : String :=
  if avg_polarity > 0.1 then "😊 Generally Positive"
  else if avg_polarity < -0.1 then "😢 Generally Negative"
  else "😐 Balanced"

/-- The emotional-tone label computed inline in the summary f-string of
`WorkingSentimentClient.get_summary` (src/working_sentiment_client.py
line 138); the rendered line appends the word "subjectivity" after it. -/
def emotional_tone_label (avg_subjectivity : ℚ) : String :=
  if avg_subjectivity > 0.6 then "High"
  else if avg_subjectivity > 0.3 then "Moderate"
  else "Low"

/-- The fields of the report rendered by `WorkingSentimentClient.get_summary`
(src/working_sentiment_client.py lines 126-140). -/
structure ClientSummaryStats where
  total : ℕ
  avg_polarity : ℚ
  avg_subjectivity : ℚ
  pos_count : ℕ
  neg_count : ℕ
  neu_count : ℕ
  pos_pct : ℚ
  neg_pct : ℚ
  neu_pct : ℚ
  overall_mood : String
  emotional_tone : String
deriving Repr, DecidableEq

/-- The result of `WorkingSentimentClient.get_summary`: the sentinel string of
line 111 or the statistics and labels carried by the rendered report. -/
inductive ClientSummary where
  | noAnalysisHistory : ClientSummary
  | summary : ClientSummaryStats → ClientSummary
deriving Repr, DecidableEq

/-- `WorkingSentimentClient.get_summary` (src/working_sentiment_client.py
lines 108-140).  Its `analysis_history` only ever receives successfully parsed
measurements (line 45), so every element is present. -/
def get_summary (analysis_history : List SentimentMeasurement) : ClientSummary :=
  if analysis_history.isEmpty then ClientSummary.noAnalysisHistory
  else
    let polarities := analysis_history.map (fun s => s.polarity)
    let subjectivities := analysis_history.map (fun s => s.subjectivity)
    let assessments := analysis_history.map (fun s => s.assessment)
    let avg_polarity := polarities.sum / (polarities.length : ℚ)
    let avg_subjectivity := subjectivities.sum / (subjectivities.length : ℚ)
    let pos_count := assessments.count "positive"
    let neg_count := assessments.count "negative"
    let neu_count := assessments.count "neutral"
    let total := analysis_history.length
    ClientSummary.summary
      ⟨total, avg_polarity, avg_subjectivity, pos_count, neg_count, neu_count,
       (pos_count : ℚ) / (total : ℚ) * 100,
       (neg_count : ℚ) / (total : ℚ) * 100,
       (neu_count : ℚ) / (total : ℚ) * 100,
       overall_mood_label avg_polarity,
       emotional_tone_label avg_subjectivity⟩

/-- C3: with zero present measurements in the history, the summary is one of
the sentinel "no data" reports, never the statistics report (whose divisions
are thus never reached), and the function is total; likewise the client-side
summary of an empty analysis history is its sentinel. -/
theorem empty_history_sentinel (h : List HistoryEntry)
    (hn : h.filterMap (fun e => e.sentiment) = []) :
    (get_conversation_summary h = ConversationSummary.noConversationData ∨
      get_conversation_summary h = ConversationSummary.noSentimentData) ∧
    (∀ st, get_conversation_summary h ≠ ConversationSummary.summary st) ∧
    get_summary [] = ClientSummary.noAnalysisHistory := by
  by_cases hE : h.isEmpty
  · refine ⟨Or.inl ?_, fun st => ?_, rfl⟩ <;> simp [get_conversation_summary, hE]
  · refine ⟨Or.inr ?_, fun st => ?_, rfl⟩ <;> simp [get_conversation_summary, hE, hn]

/-- Witness for C3: a one-record history whose measurement is absent yields a
sentinel report. -/
theorem empty_history_sentinel_witness :
    (get_conversation_summary [⟨"hi", none, "resp"⟩] =
        ConversationSummary.noConversationData ∨
      get_conversation_summary [⟨"hi", none, "resp"⟩] =
        ConversationSummary.noSentimentData) ∧
    (∀ st, get_conversation_summary [⟨"hi", none, "resp"⟩] ≠
        ConversationSummary.summary st) ∧
    get_summary [] = ClientSummary.noAnalysisHistory :=
  empty_history_sentinel [⟨"hi", none, "resp"⟩] rfl

lemma count_three_eq_length (l : List String)
    (hall : ∀ x ∈ l, x = "positive" ∨ x = "negative" ∨ x = "neutral") :
    l.count "positive" + l.count "negative" + l.count "neutral" = l.length := by
  induction l with
  | nil => rfl
  | cons a t ih =>
    have iht := ih (fun x hx => hall x (List.mem_cons_of_mem a hx))
    rcases hall a (List.mem_cons_self a t) with ha | ha | ha <;> subst ha <;>
      simp [List.count_cons] <;> omega

/-- C5: for a history with at least one present measurement, the summary
carries the arithmetic means of polarity and subjectivity over exactly the
present measurements, the per-assessment counts and the percentages
count/total*100 over that same set; when every assessment is one of the three
categories, the three percentages sum exactly to 100. -/
theorem conversation_statistics (h : List HistoryEntry)
    (hne : h.filterMap (fun e => e.sentiment) ≠ []) :
    ∃ st : SummaryStats, get_conversation_summary h = ConversationSummary.summary st ∧
      st.total = (h.filterMap (fun e => e.sentiment)).length ∧
      st.avg_polarity =
        ((h.filterMap (fun e => e.sentiment)).map (fun s => s.polarity)).sum /
          (st.total : ℚ) ∧
      st.avg_subjectivity =
        ((h.filterMap (fun e => e.sentiment)).map (fun s => s.subjectivity)).sum /
          (st.total : ℚ) ∧
      st.pos_count =
        ((h.filterMap (fun e => e.sentiment)).map (fun s => s.assessment)).count
          "positive" ∧
      st.neg_count =
        ((h.filterMap (fun e => e.sentiment)).map (fun s => s.assessment)).count
          "negative" ∧
      st.neu_count =
        ((h.filterMap (fun e => e.sentiment)).map (fun s => s.assessment)).count
          "neutral" ∧
      st.pos_pct = (st.pos_count : ℚ) / (st.total : ℚ) * 100 ∧
      st.neg_pct = (st.neg_count : ℚ) / (st.total : ℚ) * 100 ∧
      st.neu_pct = (st.neu_count : ℚ) / (st.total : ℚ) * 100 ∧
      ((∀ d ∈ h.filterMap (fun e => e.sentiment),
          d.assessment = "positive" ∨ d.assessment = "negative" ∨
            d.assessment = "neutral") →
        st.pos_pct + st.neg_pct + st.neu_pct = 100) := by
  have hhne : h ≠ [] := by
    intro hh
    exact hne (by rw [hh]; rfl)
  unfold get_conversation_summary
  rw [if_neg (by simpa using hhne), if_neg (by simpa using hne)]
  refine ⟨_, rfl, rfl, rfl, rfl, rfl, rfl, rfl, rfl, rfl, rfl, ?_⟩
  intro hall
  show ((((h.filterMap (fun e => e.sentiment)).map (fun s => s.assessment)).count
          "positive" : ℚ) /
        ((h.filterMap (fun e => e.sentiment)).length : ℚ) * 100) +
      ((((h.filterMap (fun e => e.sentiment)).map (fun s => s.assessment)).count
          "negative" : ℚ) /
        ((h.filterMap (fun e => e.sentiment)).length : ℚ) * 100) +
      ((((h.filterMap (fun e => e.sentiment)).map (fun s => s.assessment)).count
          "neutral" : ℚ) /
        ((h.filterMap (fun e => e.sentiment)).length : ℚ) * 100) = 100
  have hall2 : ∀ x ∈ (h.filterMap (fun e => e.sentiment)).map (fun s => s.assessment),
      x = "positive" ∨ x = "negative" ∨ x = "neutral" := by
    intro x hx
    obtain ⟨d, hd, rfl⟩ := List.mem_map.mp hx
    exact hall d hd
  have hc := count_three_eq_length _ hall2
  rw [List.length_map] at hc
  have hlen : (h.filterMap (fun e => e.sentiment)).length ≠ 0 := by
    intro h0
    exact hne (List.eq_nil_of_length_eq_zero h0)
  have ht : ((h.filterMap (fun e => e.sentiment)).length : ℚ) ≠ 0 :=
    Nat.cast_ne_zero.mpr hlen
  have hcq : ((((h.filterMap (fun e => e.sentiment)).map (fun s => s.assessment)).count
        "positive" : ℚ)) +
      ((((h.filterMap (fun e => e.sentiment)).map (fun s => s.assessment)).count
        "negative" : ℚ)) +
      ((((h.filterMap (fun e => e.sentiment)).map (fun s => s.assessment)).count
        "neutral" : ℚ)) = ((h.filterMap (fun e => e.sentiment)).length : ℚ) := by
    exact_mod_cast hc
  field_simp
  linarith [hcq]

/-- The three-message scenario of the specification: polarities
0.5, -0.5, 0.0 with assessments positive, negative, neutral. -/
def example_history : List HistoryEntry :=
  [ ⟨"good", some ⟨"good", 1/2, 1/2, "positive"⟩, "r1"⟩,
    ⟨"bad", some ⟨"bad", -(1/2), 1/2, "negative"⟩, "r2"⟩,
    ⟨"meh", some ⟨"meh", 0, 1/2, "neutral"⟩, "r3"⟩ ]

/-- Witness for C5 on the specification's scenario: mean polarity 0 and each
percentage exactly 100/3 (displayed as 33.3), summing to 100. -/
theorem conversation_statistics_witness :
    ∃ st : SummaryStats,
      get_conversation_summary example_history = ConversationSummary.summary st ∧
      st.avg_polarity = 0 ∧ st.pos_pct = 100 / 3 ∧ st.neg_pct = 100 / 3 ∧
      st.neu_pct = 100 / 3 ∧ st.pos_pct + st.neg_pct + st.neu_pct = 100 := by
  obtain ⟨st, hs, htot, havgp, havgs, hposc, hnegc, hneuc, hpp, hnp, hup, h100⟩ :=
    conversation_statistics example_history (by decide)
  refine ⟨st, hs, ?_, ?_, ?_, ?_, h100 (by decide)⟩
  · rw [havgp, htot]
    norm_num [example_history, List.filterMap_cons, List.filterMap_nil]
  · rw [hpp, hposc, htot]
    norm_num [example_history, List.filterMap_cons, List.filterMap_nil,
      List.count_cons]
    rw [if_neg (by decide), if_neg (by decide)]
    norm_num
  · rw [hnp, hnegc, htot]
    norm_num [example_history, List.filterMap_cons, List.filterMap_nil,
      List.count_cons]
    rw [if_neg (by decide), if_neg (by decide)]
    norm_num
  · rw [hup, hneuc, htot]
    norm_num [example_history, List.filterMap_cons, List.filterMap_nil,
      List.count_cons]
    rw [if_neg (by decide), if_neg (by decide)]
    norm_num

lemma mood_label_iff (q : ℚ) :
    (overall_mood_label q = "😊 Generally Positive" ↔ 0.1 < q) ∧
    (overall_mood_label q = "😢 Generally Negative" ↔ q < -0.1) ∧
    (overall_mood_label q = "😐 Balanced" ↔ -0.1 ≤ q ∧ q ≤ 0.1) := by
  unfold overall_mood_label
  split_ifs with h1 h2
  · exact ⟨iff_of_true rfl h1,
      iff_of_false (by decide) (by intro hc; linarith),
      iff_of_false (by decide) (fun hc => absurd h1 (not_lt.mpr hc.2))⟩
  · exact ⟨iff_of_false (by decide) h1,
      iff_of_true rfl h2,
      iff_of_false (by decide) (fun hc => absurd h2 (not_lt.mpr hc.1))⟩
  · exact ⟨iff_of_false (by decide) h1,
      iff_of_false (by decide) h2,
      iff_of_true rfl ⟨not_lt.mp h2, not_lt.mp h1⟩⟩

lemma tone_label_iff (q : ℚ) :
    (emotional_tone_label q = "High" ↔ 0.6 < q) ∧
    (emotional_tone_label q = "Moderate" ↔ 0.3 < q ∧ q ≤ 0.6) ∧
    (emotional_tone_label q = "Low" ↔ q ≤ 0.3) := by
  unfold emotional_tone_label
  split_ifs with h1 h2
  · exact ⟨iff_of_true rfl h1,
      iff_of_false (by decide) (fun hc => absurd h1 (not_lt.mpr hc.2)),
      iff_of_false (by decide) (by intro hc; linarith)⟩
  · exact ⟨iff_of_false (by decide) h1,
      iff_of_true rfl ⟨h2, not_lt.mp h1⟩,
      iff_of_false (by decide) (fun hc => absurd h2 (not_lt.mpr hc))⟩
  · exact ⟨iff_of_false (by decide) h1,
      iff_of_false (by decide) (fun hc => absurd hc.1 h2),
      iff_of_true rfl (not_lt.mp h2)⟩

/-- C6: for a non-empty analysis history, the summary's qualitative labels are
derived by thresholding the means: the mood label is "Generally Positive" iff
mean polarity > 0.1, "Generally Negative" iff mean polarity < -0.1, and
"Balanced" otherwise; the tone label is "High" iff mean subjectivity > 0.6,
"Moderate" iff 0.3 < mean subjectivity <= 0.6, and "Low" otherwise. -/
theorem summary_qualitative_labels (h : List SentimentMeasurement) (hne : h ≠ []) :
    ∃ st : ClientSummaryStats, get_summary h = ClientSummary.summary st ∧
      st.avg_polarity = (h.map (fun s => s.polarity)).sum / (h.length : ℚ) ∧
      st.avg_subjectivity = (h.map (fun s => s.subjectivity)).sum / (h.length : ℚ) ∧
      st.overall_mood = overall_mood_label st.avg_polarity ∧
      st.emotional_tone = emotional_tone_label st.avg_subjectivity ∧
      (∀ q : ℚ, (overall_mood_label q = "😊 Generally Positive" ↔ 0.1 < q) ∧
        (overall_mood_label q = "😢 Generally Negative" ↔ q < -0.1) ∧
        (overall_mood_label q = "😐 Balanced" ↔ -0.1 ≤ q ∧ q ≤ 0.1)) ∧
      (∀ q : ℚ, (emotional_tone_label q = "High" ↔ 0.6 < q) ∧
        (emotional_tone_label q = "Moderate" ↔ 0.3 < q ∧ q ≤ 0.6) ∧
        (emotional_tone_label q = "Low" ↔ q ≤ 0.3)) := by
  unfold get_summary
  rw [if_neg (by simpa using hne)]
  exact ⟨_, rfl, by simp, by simp, rfl, rfl, mood_label_iff, tone_label_iff⟩

/-- Witness for C6 at a one-element history. -/
theorem summary_qualitative_labels_witness :
    ∃ st : ClientSummaryStats,
      get_summary [⟨"t", 1/2, 1/2, "positive"⟩] = ClientSummary.summary st :=
  (summary_qualitative_labels [⟨"t", 1/2, 1/2, "positive"⟩] (by decide)).elim
    (fun st hst => ⟨st, hst.1⟩)
